import Mathlib

/-
Verification of the cached-state adapter layer of a Homebridge plugin for
Sinope thermostats and switches. The embedding below follows
src/platformAccessory.ts and src/types.ts: the per-accessory cache class
State, the TTL-gated read path (getState / updateState) of the two
accessory classes, and their characteristic handlers. Asynchronous vendor
calls are modelled by passing their awaited outcome as an explicit
Except-valued argument; the per-instance async lock is modelled by running
critical sections one after the other (the lock admits a single critical
section at a time). Epoch timestamps are natural numbers of seconds.
-/

namespace Sinope

/-- Vendor sub-record carrying a room temperature reading
(types.ts, interface RootTemperature: a single numeric field value). -/
structure RootTemperature where
  value : Int
  deriving Repr, DecidableEq

/-- Vendor device state snapshot (types.ts, interface SinopeDeviceState).
Every member of the TypeScript interface is optional; the two untyped
diagnostic fields are carried as optional unit values since no code reads
them. -/
structure SinopeDeviceState where
  roomTemperature : Option RootTemperature := none
  roomSetpoint : Option Int := none
  outputPercentDisplay : Option Int := none
  setpointMode : Option String := none
  onOff : Option String := none
  wattageInstant : Option Int := none
  errorCodeSet1 : Option Unit := none
  drStatus : Option Unit := none
  deriving Repr, DecidableEq

/-- Sparse write request sent to the vendor
(types.ts, interface SinopeDeviceStateRequest). -/
structure SinopeDeviceStateRequest where
  roomSetpoint : Option Int := none
  setpointMode : Option String := none
  onOff : Option String := none
  deriving Repr, DecidableEq

/-- Cached per-accessory state (platformAccessory.ts, class State). The four
numeric fields are optional numbers that default to 0, onOff starts
undefined, and validUntil starts at epoch 0. The AsyncLock member is not
data; it is modelled by serializing the critical sections that use it. -/
structure State where
  currentTemperature : Option Int := some 0
  targetTemperature : Option Int := some 0
  currentHeatingCoolingState : Option Int := some 0
  targetHeatingCoolingState : Option Int := some 0
  onOff : Option Bool := none
  validUntil : Nat := 0
  deriving Repr, DecidableEq

/-- State produced by the field initializers of new State(). -/
def State.init : State := {}

/-- Awaited outcome of the vendor fetchDevice call: a snapshot, or a thrown
error (the thrown value is never inspected, only logged). -/
abbrev FetchResult := Except Unit SinopeDeviceState

/-- Awaited outcome of the vendor updateDevice call. -/
abbrev UpdateResult := Except Unit Unit

namespace SinopeAccessory

/-- isValid of class SinopeAccessory: the timestamp is valid when it lies
strictly beyond the current epoch (the check against undefined in the
source is vacuous on a number-typed argument). -/
def isValid (now timestamp : Nat) : Bool :=
  timestamp > now

/-- updateState of class SinopeAccessory. On a successful fetch it first
extends validUntil to now + 10, then maps the snapshot: when
roomTemperature (and its value) is present it assigns currentTemperature,
assigns targetTemperature from roomSetpoint as-is, derives
currentHeatingCoolingState from outputPercentDisplay and
targetHeatingCoolingState from setpointMode; otherwise, when onOff is
present, it assigns the cached onOff flag. On a thrown fetch error the
whole body is skipped and the state is left as it was (the catch block
only logs). -/
def updateState (s : State) (now : Nat) (fetch : FetchResult) : State :=
  match fetch with
  | Except.error _ => s
  | Except.ok d =>
    let s1 : State := { s with validUntil := now + 10 }
    match d.roomTemperature with
    | some rt =>
      let s2 : State := { s1 with currentTemperature := some rt.value }
      let s3 : State := { s2 with targetTemperature := d.roomSetpoint }
      let heating : Int :=
        match d.outputPercentDisplay with
        | some p => if p > 0 then 1 else 0
        | none => 0
      let s4 : State := { s3 with currentHeatingCoolingState := some heating }
      let target : Int :=
        if d.setpointMode = some "auto" then 3
        else if d.setpointMode = some "off" then 0
        else 1
      { s4 with targetHeatingCoolingState := some target }
    | none =>
      match d.onOff with
      | some o => { s1 with onOff := some (o == "on") }
      | none => s1

/-- getState of class SinopeAccessory: inside the per-instance lock, refresh
when the cached expiry is no longer valid, then return the cached state.
The Bool component records whether a vendor fetch was issued. -/
def getState (s : State) (now : Nat) (fetch : FetchResult) : State × Bool :=
  if isValid now s.validUntil then (s, false)
  else (updateState s now fetch, true)

/-- handleCurrentTemperatureGet: read through the cache and invoke the
callback with a null error and the cached current temperature. The result
is the post-read state, the callback error argument, and the callback
value argument. -/
def handleCurrentTemperatureGet (s : State) (now : Nat) (fetch : FetchResult) :
    State × Option Unit × Option Int :=
  let st := (getState s now fetch).1
  (st, none, st.currentTemperature)

/-- handleTargetTemperatureGet: read through the cache and invoke the
callback with a null error and the cached target temperature. -/
def handleTargetTemperatureGet (s : State) (now : Nat) (fetch : FetchResult) :
    State × Option Unit × Option Int :=
  let st := (getState s now fetch).1
  (st, none, st.targetTemperature)

/-- handleCurrentHeatingCoolingStateGet: read through the cache and invoke
the callback with a null error and the cached current mode. -/
def handleCurrentHeatingCoolingStateGet (s : State) (now : Nat) (fetch : FetchResult) :
    State × Option Unit × Option Int :=
  let st := (getState s now fetch).1
  (st, none, st.currentHeatingCoolingState)

/-- handleTargetHeatingCoolingStateGet: read through the cache and invoke
the callback with a null error and the cached target mode. -/
def handleTargetHeatingCoolingStateGet (s : State) (now : Nat) (fetch : FetchResult) :
    State × Option Unit × Option Int :=
  let st := (getState s now fetch).1
  (st, none, st.targetHeatingCoolingState)

/-- handleTargetTemperatureSet: build the patch carrying roomSetpoint,
send it (the awaited outcome update is only logged, never propagated), and
invoke the callback with a null error. The result is the post-write state,
the patch sent, and the callback error argument. -/
def handleTargetTemperatureSet (s : State) (value : Int) (update : UpdateResult) :
    State × SinopeDeviceStateRequest × Option Unit :=
  let body : SinopeDeviceStateRequest := { roomSetpoint := some value }
  match update with
  | Except.ok _ => (s, body, none)
  | Except.error _ => (s, body, none)

/-- handleTargetHeatingCoolingStateSet: read the cache (possibly refreshing
it) to learn the current target mode, then decide the patch: mode 0 always
sends setpointMode off; a non-zero mode sends setpointMode auto only when
the cached target mode is 0; otherwise no patch is sent and the callback
fires immediately. In the two sending branches the awaited outcome update
is only logged; the callback error argument is always null. -/
def handleTargetHeatingCoolingStateSet (s : State) (now : Nat) (fetch : FetchResult)
    (value : Int) (update : UpdateResult) :
    State × Option SinopeDeviceStateRequest × Option Unit :=
  let st := (getState s now fetch).1
  let mode := value
  if mode = 0 then
    let body : SinopeDeviceStateRequest := { setpointMode := some "off" }
    match update with
    | Except.ok _ => (st, some body, none)
    | Except.error _ => (st, some body, none)
  else if mode ≠ 0 ∧ st.targetHeatingCoolingState = some 0 then
    let body : SinopeDeviceStateRequest := { setpointMode := some "auto" }
    match update with
    | Except.ok _ => (st, some body, none)
    | Except.error _ => (st, some body, none)
  else
    (st, none, none)

end SinopeAccessory

namespace SinopeSwitchAccessory

/-- isValid of class SinopeSwitchAccessory, identical to the thermostat
version. -/
def isValid (now timestamp : Nat) : Bool :=
  timestamp > now

/-- updateState of class SinopeSwitchAccessory. On a successful fetch it
extends validUntil to now + 10 and, when the snapshot carries onOff,
assigns the cached onOff flag from the string comparison with on. On a
thrown fetch error the state is left as it was. -/
def updateState (s : State) (now : Nat) (fetch : FetchResult) : State :=
  match fetch with
  | Except.error _ => s
  | Except.ok d =>
    let s1 : State := { s with validUntil := now + 10 }
    match d.onOff with
    | some o => { s1 with onOff := some (o == "on") }
    | none => s1

/-- getState of class SinopeSwitchAccessory, identical in structure to the
thermostat version. -/
def getState (s : State) (now : Nat) (fetch : FetchResult) : State × Bool :=
  if isValid now s.validUntil then (s, false)
  else (updateState s now fetch, true)

/-- getOnCharacteristicHandler: read through the cache and invoke the
callback with a null error and the cached onOff flag. -/
def getOnCharacteristicHandler (s : State) (now : Nat) (fetch : FetchResult) :
    State × Option Unit × Option Bool :=
  let st := (getState s now fetch).1
  (st, none, st.onOff)

/-- setOnCharacteristicHandler: build the patch carrying onOff (the string
on for a truthy value, off otherwise), send it (the awaited outcome is
only logged), and invoke the callback with a null error. -/
def setOnCharacteristicHandler (s : State) (value : Bool) (update : UpdateResult) :
    State × SinopeDeviceStateRequest × Option Unit :=
  let body : SinopeDeviceStateRequest := { onOff := some (if value then "on" else "off") }
  match update with
  | Except.ok _ => (s, body, none)
  | Except.error _ => (s, body, none)

end SinopeSwitchAccessory

/-- Two thermostat readers serialized by the per-instance lock: the second
critical section runs right after the first. Returns the state each reader
observes and how many vendor fetches were issued in total. -/
def twoReaders (s : State) (now : Nat) (f1 f2 : FetchResult) :
    State × State × Nat :=
  let r1 := SinopeAccessory.getState s now f1
  let r2 := SinopeAccessory.getState r1.1 now f2
  (r1.1, r2.1, (if r1.2 then 1 else 0) + (if r2.2 then 1 else 0))

/-- A sequence of serialized thermostat reads: each step supplies the epoch
at which the read runs and the outcome the vendor fetch would have. -/
def readLoop (s : State) : List (Nat × FetchResult) → State
  | [] => s
  | step :: rest => readLoop (SinopeAccessory.getState s step.1 step.2).1 rest

/-- A sequence of serialized switch reads. -/
def readLoopSwitch (s : State) : List (Nat × FetchResult) → State
  | [] => s
  | step :: rest => readLoopSwitch (SinopeSwitchAccessory.getState s step.1 step.2).1 rest

/-! Helper lemmas about the read path, shared by the claim theorems. -/

theorem SinopeAccessory.updateState_error (s : State) (now : Nat) (e : Unit) :
    SinopeAccessory.updateState s now (Except.error e) = s := rfl

theorem SinopeSwitchAccessory.sw_updateState_error (s : State) (now : Nat) (e : Unit) :
    SinopeSwitchAccessory.updateState s now (Except.error e) = s := rfl

theorem SinopeAccessory.updateState_ok_validUntil (s : State) (now : Nat)
    (d : SinopeDeviceState) :
    (SinopeAccessory.updateState s now (Except.ok d)).validUntil = now + 10 := by
  rcases d with ⟨rt, rs, op, sm, oo, w, e1, dr⟩
  cases rt <;> cases oo <;> simp [SinopeAccessory.updateState]

theorem SinopeSwitchAccessory.sw_updateState_ok_validUntil (s : State) (now : Nat)
    (d : SinopeDeviceState) :
    (SinopeSwitchAccessory.updateState s now (Except.ok d)).validUntil = now + 10 := by
  rcases d with ⟨rt, rs, op, sm, oo, w, e1, dr⟩
  cases oo <;> simp [SinopeSwitchAccessory.updateState]

theorem SinopeAccessory.getState_fresh (s : State) (now : Nat) (f : FetchResult)
    (h : now < s.validUntil) :
    SinopeAccessory.getState s now f = (s, false) := by
  simp [SinopeAccessory.getState, SinopeAccessory.isValid, h]

theorem SinopeAccessory.getState_stale (s : State) (now : Nat) (f : FetchResult)
    (h : ¬ now < s.validUntil) :
    SinopeAccessory.getState s now f = (SinopeAccessory.updateState s now f, true) := by
  simp [SinopeAccessory.getState, SinopeAccessory.isValid, h]

theorem SinopeSwitchAccessory.sw_getState_fresh (s : State) (now : Nat) (f : FetchResult)
    (h : now < s.validUntil) :
    SinopeSwitchAccessory.getState s now f = (s, false) := by
  simp [SinopeSwitchAccessory.getState, SinopeSwitchAccessory.isValid, h]

theorem SinopeSwitchAccessory.sw_getState_stale (s : State) (now : Nat) (f : FetchResult)
    (h : ¬ now < s.validUntil) :
    SinopeSwitchAccessory.getState s now f =
      (SinopeSwitchAccessory.updateState s now f, true) := by
  simp [SinopeSwitchAccessory.getState, SinopeSwitchAccessory.isValid, h]

theorem SinopeAccessory.getState_error_fst (s : State) (now : Nat) (e : Unit) :
    (SinopeAccessory.getState s now (Except.error e)).1 = s := by
  by_cases h : now < s.validUntil
  · rw [SinopeAccessory.getState_fresh s now _ h]
  · rw [SinopeAccessory.getState_stale s now _ h, SinopeAccessory.updateState_error]

theorem SinopeSwitchAccessory.sw_getState_error_fst (s : State) (now : Nat) (e : Unit) :
    (SinopeSwitchAccessory.getState s now (Except.error e)).1 = s := by
  by_cases h : now < s.validUntil
  · rw [SinopeSwitchAccessory.sw_getState_fresh s now _ h]
  · rw [SinopeSwitchAccessory.sw_getState_stale s now _ h,
      SinopeSwitchAccessory.sw_updateState_error]

theorem readLoop_all_error (s : State) (tr : List (Nat × FetchResult))
    (h : ∀ x ∈ tr, x.2 = Except.error ()) : readLoop s tr = s := by
  induction tr generalizing s with
  | nil => rfl
  | cons step rest ih =>
    have h1 : step.2 = Except.error () := h step (List.mem_cons_self _ _)
    rw [readLoop, h1, SinopeAccessory.getState_error_fst]
    exact ih s fun x hx => h x (List.mem_cons_of_mem _ hx)

theorem readLoopSwitch_all_error (s : State) (tr : List (Nat × FetchResult))
    (h : ∀ x ∈ tr, x.2 = Except.error ()) : readLoopSwitch s tr = s := by
  induction tr generalizing s with
  | nil => rfl
  | cons step rest ih =>
    have h1 : step.2 = Except.error () := h step (List.mem_cons_self _ _)
    rw [readLoopSwitch, h1, SinopeSwitchAccessory.sw_getState_error_fst]
    exact ih s fun x hx => h x (List.mem_cons_of_mem _ hx)

theorem SinopeAccessory.handleTargetTemperatureSet_eq (s : State) (v : Int)
    (u : UpdateResult) :
    SinopeAccessory.handleTargetTemperatureSet s v u =
      (s, { roomSetpoint := some v }, none) := by
  rcases u with u | u <;> rfl

theorem SinopeSwitchAccessory.setOnCharacteristicHandler_eq (s : State) (b : Bool)
    (u : UpdateResult) :
    SinopeSwitchAccessory.setOnCharacteristicHandler s b u =
      (s, { onOff := some (if b then "on" else "off") }, none) := by
  rcases u with u | u <;> rfl

theorem SinopeAccessory.handleTargetHeatingCoolingStateSet_eq (s : State) (now : Nat)
    (f : FetchResult) (v : Int) (u : UpdateResult) :
    SinopeAccessory.handleTargetHeatingCoolingStateSet s now f v u =
      ((SinopeAccessory.getState s now f).1,
       (if v = 0 then some { setpointMode := some "off" }
        else if (SinopeAccessory.getState s now f).1.targetHeatingCoolingState = some 0
        then some { setpointMode := some "auto" }
        else none),
       none) := by
  rcases u with u | u <;>
    by_cases hv : v = 0 <;>
    by_cases hm :
      (SinopeAccessory.getState s now f).1.targetHeatingCoolingState = some 0 <;>
    simp [SinopeAccessory.handleTargetHeatingCoolingStateSet, hv, hm]

/-- C1: when the cached expiry is not strictly in the future of the current epoch,
getState performs a refresh before returning, and a successful refresh sets the
expiry to the current epoch plus exactly 10 seconds; when the expiry is strictly in
the future, getState returns the cached snapshot unchanged with no vendor fetch. -/
theorem C1_getState_ttl (s : State) (now : Nat) (d : SinopeDeviceState)
    (f : FetchResult) :
    (¬ now < s.validUntil →
      (SinopeAccessory.getState s now f).2 = true ∧
      (SinopeAccessory.getState s now (Except.ok d)).1.validUntil = now + 10) ∧
    (now < s.validUntil → SinopeAccessory.getState s now f = (s, false)) := by
  constructor
  · intro h
    rw [SinopeAccessory.getState_stale s now f h,
      SinopeAccessory.getState_stale s now (Except.ok d) h]
    exact ⟨rfl, SinopeAccessory.updateState_ok_validUntil s now d⟩
  · intro h
    exact SinopeAccessory.getState_fresh s now f h

/-- C1 witness: the two branches of C1 at concrete inputs. -/
theorem C1_getState_ttl_witness :
    ((SinopeAccessory.getState State.init 5 (Except.ok {})).2 = true ∧
      (SinopeAccessory.getState State.init 5
        (Except.ok ({} : SinopeDeviceState))).1.validUntil = 5 + 10) ∧
    SinopeAccessory.getState { State.init with validUntil := 9 } 5 (Except.error ()) =
      ({ State.init with validUntil := 9 }, false) :=
  ⟨(C1_getState_ttl State.init 5 {} (Except.ok {})).1 (by decide),
   (C1_getState_ttl { State.init with validUntil := 9 } 5 {} (Except.error ())).2
     (by decide)⟩

/-- C2 counterexample: two serialized readers against the stale initial cache issue
two vendor fetches when the first fetch fails, not exactly one. -/
theorem C2_two_fetches_on_failure :
    (twoReaders State.init 0 (Except.error ()) (Except.error ())).2.2 = 2 := by decide

/-- C2 amended: for two reads serialized by the per-instance lock against an adapter
whose cache is stale, when the in-flight refresh succeeds exactly one fetch reaches
the vendor: the second reader re-checks validity, observes the freshly extended
expiry, and returns the same post-refresh snapshot without a second fetch. -/
theorem C2_single_fetch (s : State) (now : Nat) (d : SinopeDeviceState)
    (f2 : FetchResult) (h : ¬ now < s.validUntil) :
    (twoReaders s now (Except.ok d) f2).2.2 = 1 ∧
    (twoReaders s now (Except.ok d) f2).2.1 = (twoReaders s now (Except.ok d) f2).1 ∧
    (twoReaders s now (Except.ok d) f2).1.validUntil = now + 10 := by
  have h1 := SinopeAccessory.getState_stale s now (Except.ok d) h
  have hv := SinopeAccessory.updateState_ok_validUntil s now d
  have h2 : now < (SinopeAccessory.updateState s now (Except.ok d)).validUntil := by
    omega
  simp [twoReaders, h1, SinopeAccessory.getState_fresh _ now f2 h2, hv]

/-- C2 witness: the amended C2 at a concrete stale state. -/
theorem C2_single_fetch_witness :
    (twoReaders State.init 7 (Except.ok {}) (Except.error ())).2.2 = 1 ∧
    (twoReaders State.init 7 (Except.ok {}) (Except.error ())).2.1 =
      (twoReaders State.init 7 (Except.ok {}) (Except.error ())).1 ∧
    (twoReaders State.init 7 (Except.ok {}) (Except.error ())).1.validUntil = 7 + 10 :=
  C2_single_fetch State.init 7 {} (Except.error ()) (by decide)

/-- C3: in the target mode write handler, with m the cached target mode consulted
through the read path, writing 0 always sends the patch setpointMode off; writing a
non-zero value sends setpointMode auto exactly when m is 0; otherwise no patch is
sent and the callback still signals success. -/
theorem C3_target_mode_write (s : State) (now : Nat) (f : FetchResult) (value : Int)
    (u : UpdateResult) :
    (value = 0 →
      (SinopeAccessory.handleTargetHeatingCoolingStateSet s now f value u).2.1 =
        some { setpointMode := some "off" }) ∧
    (value ≠ 0 →
      ((SinopeAccessory.handleTargetHeatingCoolingStateSet s now f value u).2.1 =
          some { setpointMode := some "auto" } ↔
        (SinopeAccessory.getState s now f).1.targetHeatingCoolingState = some 0)) ∧
    (value ≠ 0 →
      (SinopeAccessory.getState s now f).1.targetHeatingCoolingState ≠ some 0 →
      (SinopeAccessory.handleTargetHeatingCoolingStateSet s now f value u).2.1 = none ∧
      (SinopeAccessory.handleTargetHeatingCoolingStateSet s now f value u).2.2 = none) := by
  rcases u with u | u <;>
    by_cases hv : value = 0 <;>
    by_cases hm :
      (SinopeAccessory.getState s now f).1.targetHeatingCoolingState = some 0 <;>
    simp [SinopeAccessory.handleTargetHeatingCoolingStateSet, hv, hm]

/-- C3 witness: the three branches of C3 at concrete inputs. -/
theorem C3_target_mode_write_witness :
    (SinopeAccessory.handleTargetHeatingCoolingStateSet State.init 20
        (Except.error ()) 0 (Except.ok ())).2.1 = some { setpointMode := some "off" } ∧
    ((SinopeAccessory.handleTargetHeatingCoolingStateSet State.init 20
        (Except.error ()) 1 (Except.ok ())).2.1 = some { setpointMode := some "auto" } ↔
      (SinopeAccessory.getState State.init 20
        (Except.error ())).1.targetHeatingCoolingState = some 0) ∧
    ((SinopeAccessory.handleTargetHeatingCoolingStateSet
        { State.init with targetHeatingCoolingState := some 1, validUntil := 30 } 20
        (Except.error ()) 1 (Except.ok ())).2.1 = none ∧
      (SinopeAccessory.handleTargetHeatingCoolingStateSet
        { State.init with targetHeatingCoolingState := some 1, validUntil := 30 } 20
        (Except.error ()) 1 (Except.ok ())).2.2 = none) :=
  ⟨(C3_target_mode_write State.init 20 (Except.error ()) 0 (Except.ok ())).1 rfl,
   (C3_target_mode_write State.init 20 (Except.error ()) 1 (Except.ok ())).2.1
     (by decide),
   (C3_target_mode_write
       { State.init with targetHeatingCoolingState := some 1, validUntil := 30 } 20
       (Except.error ()) 1 (Except.ok ())).2.2 (by decide) (by decide)⟩

/-- C4: a failed vendor fetch during a refresh leaves every cached field and the
expiry exactly as they were, in both accessory classes; the read path then returns
the previously cached state, and the read handlers still invoke the callback with a
null error and the previously cached value. -/
theorem C4_fetch_failure (s : State) (now : Nat) (e : Unit) :
    SinopeAccessory.updateState s now (Except.error e) = s ∧
    SinopeSwitchAccessory.updateState s now (Except.error e) = s ∧
    (SinopeAccessory.getState s now (Except.error e)).1 = s ∧
    (SinopeAccessory.handleCurrentTemperatureGet s now (Except.error e)).2 =
      (none, s.currentTemperature) ∧
    (SinopeSwitchAccessory.getOnCharacteristicHandler s now (Except.error e)).2 =
      (none, s.onOff) := by
  refine ⟨rfl, rfl, SinopeAccessory.getState_error_fst s now e, ?_, ?_⟩
  · rw [SinopeAccessory.handleCurrentTemperatureGet,
      SinopeAccessory.getState_error_fst s now e]
  · rw [SinopeSwitchAccessory.getOnCharacteristicHandler,
      SinopeSwitchAccessory.sw_getState_error_fst s now e]

/-- C5: for a successful refresh whose snapshot carries a room temperature, the
cached current mode becomes 1 exactly when the snapshot output percent is present
and positive and 0 otherwise, and the cached target mode becomes 3 for setpointMode
auto, 0 for setpointMode off, and 1 for any other value (including an absent one). -/
theorem C5_thermostat_mapping (s : State) (now : Nat) (d : SinopeDeviceState)
    (rt : RootTemperature) (h : d.roomTemperature = some rt) :
    ((∃ p, d.outputPercentDisplay = some p ∧ 0 < p) →
      (SinopeAccessory.updateState s now (Except.ok d)).currentHeatingCoolingState =
        some 1) ∧
    ((∀ p, d.outputPercentDisplay = some p → p ≤ 0) →
      (SinopeAccessory.updateState s now (Except.ok d)).currentHeatingCoolingState =
        some 0) ∧
    (d.setpointMode = some "auto" →
      (SinopeAccessory.updateState s now (Except.ok d)).targetHeatingCoolingState =
        some 3) ∧
    (d.setpointMode = some "off" →
      (SinopeAccessory.updateState s now (Except.ok d)).targetHeatingCoolingState =
        some 0) ∧
    (d.setpointMode ≠ some "auto" → d.setpointMode ≠ some "off" →
      (SinopeAccessory.updateState s now (Except.ok d)).targetHeatingCoolingState =
        some 1) := by
  rcases d with ⟨drt, rs, op, sm, oo, w, e1, dr⟩
  simp only [SinopeDeviceState.roomTemperature] at h
  subst h
  refine ⟨?_, ?_, ?_, ?_, ?_⟩
  · rintro ⟨p, hp, hpos⟩
    simp only [SinopeDeviceState.outputPercentDisplay] at hp
    subst hp
    simp [SinopeAccessory.updateState, hpos]
  · intro hle
    cases op with
    | none => simp [SinopeAccessory.updateState]
    | some p =>
      have hp : p ≤ 0 := hle p rfl
      simp [SinopeAccessory.updateState, show ¬ p > 0 by omega]
  · intro hsm
    simp only [SinopeDeviceState.setpointMode] at hsm
    subst hsm
    simp [SinopeAccessory.updateState]
  · intro hsm
    simp only [SinopeDeviceState.setpointMode] at hsm
    subst hsm
    simp [SinopeAccessory.updateState]
  · intro h1 h2
    simp only [SinopeDeviceState.setpointMode] at h1 h2
    simp [SinopeAccessory.updateState, h1, h2]

/-- C5 witness: the mapping at a concrete thermostat snapshot. -/
theorem C5_thermostat_mapping_witness :
    (SinopeAccessory.updateState State.init 0
      (Except.ok { roomTemperature := some { value := 20 },
                   outputPercentDisplay := some 5,
                   setpointMode := some "auto" })).currentHeatingCoolingState = some 1 ∧
    (SinopeAccessory.updateState State.init 0
      (Except.ok { roomTemperature := some { value := 20 },
                   outputPercentDisplay := some 5,
                   setpointMode := some "auto" })).targetHeatingCoolingState = some 3 :=
  ⟨(C5_thermostat_mapping State.init 0
      { roomTemperature := some { value := 20 }, outputPercentDisplay := some 5,
        setpointMode := some "auto" } { value := 20 } rfl).1 ⟨5, rfl, by decide⟩,
   (C5_thermostat_mapping State.init 0
      { roomTemperature := some { value := 20 }, outputPercentDisplay := some 5,
        setpointMode := some "auto" } { value := 20 } rfl).2.2.1 rfl⟩

/-- C6: none of the three write handlers ever passes an error to its completion
callback, and the whole result of each handler is independent of whether the vendor
update succeeded or failed. -/
theorem C6_writes_never_error (s : State) (now : Nat) (f : FetchResult) (v : Int)
    (b : Bool) (u u2 : UpdateResult) :
    (SinopeAccessory.handleTargetTemperatureSet s v u).2.2 = none ∧
    (SinopeAccessory.handleTargetHeatingCoolingStateSet s now f v u).2.2 = none ∧
    (SinopeSwitchAccessory.setOnCharacteristicHandler s b u).2.2 = none ∧
    SinopeAccessory.handleTargetTemperatureSet s v u =
      SinopeAccessory.handleTargetTemperatureSet s v u2 ∧
    SinopeAccessory.handleTargetHeatingCoolingStateSet s now f v u =
      SinopeAccessory.handleTargetHeatingCoolingStateSet s now f v u2 ∧
    SinopeSwitchAccessory.setOnCharacteristicHandler s b u =
      SinopeSwitchAccessory.setOnCharacteristicHandler s b u2 := by
  simp [SinopeAccessory.handleTargetTemperatureSet_eq,
    SinopeAccessory.handleTargetHeatingCoolingStateSet_eq,
    SinopeSwitchAccessory.setOnCharacteristicHandler_eq]

/-- C7 counterexample: a refresh whose snapshot carries a room temperature but no
room setpoint overwrites the previously cached target temperature with an undefined
value instead of leaving it unchanged. -/
theorem C7_setpoint_overwritten :
    State.init.targetTemperature = some 0 ∧
    (SinopeAccessory.updateState State.init 0
      (Except.ok { roomTemperature := some { value := 20 } })).targetTemperature =
      none := by decide

/-- C7 amended: during a thermostat refresh the cached current temperature is
assigned only when the snapshot carries a room temperature and is otherwise left
unchanged; the cached target temperature is assigned the snapshot room setpoint
field as-is whenever the room temperature is present (so it becomes undefined when
the setpoint is absent) and is left unchanged only when the room temperature is
absent. -/
theorem C7_field_updates (s : State) (now : Nat) (d : SinopeDeviceState) :
    (d.roomTemperature = none →
      (SinopeAccessory.updateState s now (Except.ok d)).currentTemperature =
        s.currentTemperature ∧
      (SinopeAccessory.updateState s now (Except.ok d)).targetTemperature =
        s.targetTemperature) ∧
    (∀ rt, d.roomTemperature = some rt →
      (SinopeAccessory.updateState s now (Except.ok d)).currentTemperature =
        some rt.value ∧
      (SinopeAccessory.updateState s now (Except.ok d)).targetTemperature =
        d.roomSetpoint) := by
  rcases d with ⟨drt, rs, op, sm, oo, w, e1, dr⟩
  constructor
  · intro h
    simp only [SinopeDeviceState.roomTemperature] at h
    subst h
    cases oo <;> simp [SinopeAccessory.updateState]
  · intro rt h
    simp only [SinopeDeviceState.roomTemperature] at h
    subst h
    simp [SinopeAccessory.updateState]

/-- C7 witness: both branches of the amended C7 at concrete snapshots. -/
theorem C7_field_updates_witness :
    ((SinopeAccessory.updateState State.init 3
        (Except.ok { onOff := some "on" })).currentTemperature =
      State.init.currentTemperature ∧
     (SinopeAccessory.updateState State.init 3
        (Except.ok { onOff := some "on" })).targetTemperature =
      State.init.targetTemperature) ∧
    ((SinopeAccessory.updateState State.init 3
        (Except.ok { roomTemperature := some { value := 21 },
                     roomSetpoint := some 23 })).currentTemperature = some 21 ∧
     (SinopeAccessory.updateState State.init 3
        (Except.ok { roomTemperature := some { value := 21 },
                     roomSetpoint := some 23 })).targetTemperature =
      SinopeDeviceState.roomSetpoint
        { roomTemperature := some { value := 21 }, roomSetpoint := some 23 }) :=
  ⟨(C7_field_updates State.init 3 { onOff := some "on" }).1 rfl,
   (C7_field_updates State.init 3
      { roomTemperature := some { value := 21 }, roomSetpoint := some 23 }).2
      { value := 21 } rfl⟩

/-- C8 counterexample: a target mode write issued while the cache is stale changes
the cached expiry (and so the cached snapshot) through the embedded cache read, so
the cached state is not left unchanged by every write. -/
theorem C8_mode_write_refreshes_cache :
    State.init.validUntil = 0 ∧
    (SinopeAccessory.handleTargetHeatingCoolingStateSet State.init 0
      (Except.ok {}) 1 (Except.ok ())).1.validUntil = 10 := by decide

/-- C8 amended: the target temperature write and the switch write leave every
cached field and the expiry unchanged; the target mode write leaves the cache
exactly as the embedded cache read leaves it, and in particular unchanged whenever
the cache is valid at write time; no write stores the written value into the cache
or invalidates the expiry, so a read immediately after a write may return the stale
pre-write value until the TTL expires. -/
theorem C8_write_frame (s : State) (now : Nat) (f : FetchResult) (v : Int) (b : Bool)
    (u : UpdateResult) :
    (SinopeAccessory.handleTargetTemperatureSet s v u).1 = s ∧
    (SinopeSwitchAccessory.setOnCharacteristicHandler s b u).1 = s ∧
    (SinopeAccessory.handleTargetHeatingCoolingStateSet s now f v u).1 =
      (SinopeAccessory.getState s now f).1 ∧
    (now < s.validUntil →
      (SinopeAccessory.handleTargetHeatingCoolingStateSet s now f v u).1 = s) := by
  refine ⟨?_, ?_, ?_, ?_⟩
  · rw [SinopeAccessory.handleTargetTemperatureSet_eq]
  · rw [SinopeSwitchAccessory.setOnCharacteristicHandler_eq]
  · rw [SinopeAccessory.handleTargetHeatingCoolingStateSet_eq]
  · intro h
    rw [SinopeAccessory.handleTargetHeatingCoolingStateSet_eq,
      SinopeAccessory.getState_fresh s now f h]

/-- C8 witness: the amended C8 at a concrete state with a valid cache. -/
theorem C8_write_frame_witness :
    (SinopeAccessory.handleTargetTemperatureSet
      { State.init with validUntil := 30 } 22 (Except.error ())).1 =
      { State.init with validUntil := 30 } ∧
    (SinopeSwitchAccessory.setOnCharacteristicHandler
      { State.init with validUntil := 30 } true (Except.error ())).1 =
      { State.init with validUntil := 30 } ∧
    (SinopeAccessory.handleTargetHeatingCoolingStateSet
      { State.init with validUntil := 30 } 20 (Except.error ()) 1 (Except.error ())).1 =
      (SinopeAccessory.getState { State.init with validUntil := 30 } 20
        (Except.error ())).1 ∧
    (SinopeAccessory.handleTargetHeatingCoolingStateSet
      { State.init with validUntil := 30 } 20 (Except.error ()) 1 (Except.error ())).1 =
      { State.init with validUntil := 30 } := by
  have h := C8_write_frame { State.init with validUntil := 30 } 20 (Except.error ())
    1 true (Except.error ())
  exact ⟨h.1, h.2.1, h.2.2.1, h.2.2.2 (by decide)⟩

/-- C9: a switch read returns the cached onOff flag; a refresh whose snapshot
carries the onOff string stores the result of comparing it with the string on; a
switch write sends exactly the patch onOff on for a true value and onOff off for a
false one, with a null callback error. -/
theorem C9_switch (s : State) (now : Nat) (f : FetchResult) (d : SinopeDeviceState)
    (o : String) (v : Bool) (u : UpdateResult) :
    (SinopeSwitchAccessory.getOnCharacteristicHandler s now f).2.2 =
      (SinopeSwitchAccessory.getState s now f).1.onOff ∧
    (d.onOff = some o →
      (SinopeSwitchAccessory.updateState s now (Except.ok d)).onOff =
        some (o == "on")) ∧
    (v = true → (SinopeSwitchAccessory.setOnCharacteristicHandler s v u).2.1 =
      { onOff := some "on" }) ∧
    (v = false → (SinopeSwitchAccessory.setOnCharacteristicHandler s v u).2.1 =
      { onOff := some "off" }) ∧
    (SinopeSwitchAccessory.setOnCharacteristicHandler s v u).2.2 = none := by
  refine ⟨rfl, ?_, ?_, ?_, ?_⟩
  · intro h
    rcases d with ⟨rt, rs, op, sm, oo, w, e1, dr⟩
    simp only [SinopeDeviceState.onOff] at h
    subst h
    simp [SinopeSwitchAccessory.updateState]
  · intro hv
    subst hv
    simp [SinopeSwitchAccessory.setOnCharacteristicHandler_eq]
  · intro hv
    subst hv
    simp [SinopeSwitchAccessory.setOnCharacteristicHandler_eq]
  · rw [SinopeSwitchAccessory.setOnCharacteristicHandler_eq]

/-- C9 witness: the switch behaviors at concrete inputs. -/
theorem C9_switch_witness :
    (SinopeSwitchAccessory.getOnCharacteristicHandler State.init 4
        (Except.error ())).2.2 =
      (SinopeSwitchAccessory.getState State.init 4 (Except.error ())).1.onOff ∧
    (SinopeSwitchAccessory.updateState State.init 4
        (Except.ok { onOff := some "on" })).onOff = some ("on" == "on") ∧
    (SinopeSwitchAccessory.setOnCharacteristicHandler State.init true
        (Except.error ())).2.1 = { onOff := some "on" } ∧
    (SinopeSwitchAccessory.setOnCharacteristicHandler State.init true
        (Except.error ())).2.2 = none := by
  have h := C9_switch State.init 4 (Except.error ()) { onOff := some "on" } "on" true
    (Except.error ())
  exact ⟨h.1, h.2.1 rfl, h.2.2.1 rfl, h.2.2.2.2⟩

/-- C10: the freshly constructed cache holds 0 for the four thermostat fields, an
undefined onOff, and an already expired validUntil of 0, so the first read always
attempts a refresh in both accessory classes; after any sequence of reads whose
refreshes all failed the cache still holds the initial values, and the reads then
deliver 0 for the four thermostat fields and undefined for the switch onOff flag,
each with a null callback error. -/
theorem C10_initial_state :
    State.init.currentTemperature = some 0 ∧
    State.init.targetTemperature = some 0 ∧
    State.init.currentHeatingCoolingState = some 0 ∧
    State.init.targetHeatingCoolingState = some 0 ∧
    State.init.onOff = none ∧
    State.init.validUntil = 0 ∧
    (∀ now : Nat, ∀ f : FetchResult,
      (SinopeAccessory.getState State.init now f).2 = true) ∧
    (∀ now : Nat, ∀ f : FetchResult,
      (SinopeSwitchAccessory.getState State.init now f).2 = true) ∧
    (∀ tr : List (Nat × FetchResult), (∀ x ∈ tr, x.2 = Except.error ()) →
      readLoop State.init tr = State.init ∧
      readLoopSwitch State.init tr = State.init) ∧
    (∀ now : Nat,
      SinopeAccessory.handleCurrentTemperatureGet State.init now (Except.error ()) =
        (State.init, none, some 0) ∧
      SinopeAccessory.handleTargetTemperatureGet State.init now (Except.error ()) =
        (State.init, none, some 0) ∧
      SinopeAccessory.handleCurrentHeatingCoolingStateGet State.init now
        (Except.error ()) = (State.init, none, some 0) ∧
      SinopeAccessory.handleTargetHeatingCoolingStateGet State.init now
        (Except.error ()) = (State.init, none, some 0) ∧
      SinopeSwitchAccessory.getOnCharacteristicHandler State.init now
        (Except.error ()) = (State.init, none, none)) := by
  refine ⟨rfl, rfl, rfl, rfl, rfl, rfl, ?_, ?_, ?_, ?_⟩
  · intro now f
    rw [SinopeAccessory.getState_stale State.init now f (Nat.not_lt_zero now)]
  · intro now f
    rw [SinopeSwitchAccessory.sw_getState_stale State.init now f (Nat.not_lt_zero now)]
  · intro tr htr
    exact ⟨readLoop_all_error State.init tr htr,
      readLoopSwitch_all_error State.init tr htr⟩
  · intro now
    refine ⟨?_, ?_, ?_, ?_, ?_⟩ <;>
      simp [SinopeAccessory.handleCurrentTemperatureGet,
        SinopeAccessory.handleTargetTemperatureGet,
        SinopeAccessory.handleCurrentHeatingCoolingStateGet,
        SinopeAccessory.handleTargetHeatingCoolingStateGet,
        SinopeSwitchAccessory.getOnCharacteristicHandler,
        SinopeAccessory.getState_error_fst,
        SinopeSwitchAccessory.sw_getState_error_fst, State.init]

/-- C10 witness: the all-failures read sequence of C10 at a concrete trace. -/
theorem C10_initial_state_witness :
    readLoop State.init [(3, Except.error ())] = State.init ∧
    readLoopSwitch State.init [(3, Except.error ())] = State.init :=
  C10_initial_state.2.2.2.2.2.2.2.2.1 [(3, Except.error ())]
    (by intro x hx; rw [List.mem_singleton] at hx; rw [hx])

end Sinope
